import Mathlib

/-!
# VernierSensor: calibration state, accessors, identification and conversion

Shallow embedding of `src/VernierSensor/VernierSensor.h`.

* The class `VernierSensor` becomes a structure with one field per data member,
  in declaration order and under the member names of the header.
* Every inline member function of the header becomes a state-passing function
  `State → result × State` (none of them is `const` in the header,
  so the frame property is a theorem, not a typing fact).
* `float` is read as an exact rational number and `int` as a mathematical integer:
  the accessors only copy values, and the conversion claims are algebraic.
* A `char[N]` member is a list of exactly `N` characters; an accessor returning
  `char*` is read as returning the contents of the buffer it points to.
* `autoID` and `readSensor` are only declared in the header. Their behaviour, the
  sensor catalog and the acceptance threshold are modelled from the specification
  and marked as such.
-/

namespace VernierSensor

/-! ## Data members (header lines 30-45) -/

/-- Fixed-size character array `char buf[cap]`: exactly `cap` characters. -/
abbrev CharBuf (cap : Nat) : Type := { l : List Char // l.length = cap }

/-- Declared size of `char _sensorName[16]`. -/
def sensorNameCapacity : Nat := 16

/-- Declared size of `char _shortName[12]` (header comment: 11 char + terminator). -/
def shortNameCapacity : Nat := 12

/-- Declared size of `char _sensorUnits[7]`. -/
def sensorUnitsCapacity : Nat := 7

/-- Object state of `class VernierSensor`: the protected data members. -/
structure State where
  _voltageID : ℚ
  _channel : Int
  _sensorNumber : Int
  _sensorName : CharBuf sensorNameCapacity
  _shortName : CharBuf shortNameCapacity
  _sensorUnits : CharBuf sensorUnitsCapacity
  _slope : ℚ
  _sum : ℚ
  _intercept : ℚ
  _cFactor : ℚ
  _calEquationType : Int
  _page : Int
  _sensorReading : ℚ
  _distance : ℚ
  _i : Int
  deriving DecidableEq

/-- A C string of `len` characters needs `len + 1` array slots (the terminator). -/
def fitsWithTerminator (cap len : Nat) : Bool := decide (len + 1 ≤ cap)

/-! ## Inline accessors (header lines 13-23 and 26) -/

/-- Member `int channel() { return _channel; }`. -/
def channel (s : State) : Int × State := (s._channel, s)

/-- Member `float voltageID() { return _voltageID; }`. -/
def voltageID (s : State) : ℚ × State := (s._voltageID, s)

/-- Member `int sensorNumber() { return _sensorNumber; }`. -/
def sensorNumber (s : State) : Int × State := (s._sensorNumber, s)

/-- Member `char* sensorName() { return _sensorName; }`. -/
def sensorName (s : State) : CharBuf sensorNameCapacity × State := (s._sensorName, s)

/-- Member `char* shortName() { return _shortName; }`. -/
def shortName (s : State) : CharBuf shortNameCapacity × State := (s._shortName, s)

/-- Member `char* sensorUnits() { return _sensorUnits; }`. -/
def sensorUnits (s : State) : CharBuf sensorUnitsCapacity × State := (s._sensorUnits, s)

/-- Member `float slope() { return _slope; }`. -/
def slope (s : State) : ℚ × State := (s._slope, s)

/-- Member `float intercept() { return _intercept; }`. -/
def intercept (s : State) : ℚ × State := (s._intercept, s)

/-- Member `float cFactor() { return _cFactor; }`. -/
def cFactor (s : State) : ℚ × State := (s._cFactor, s)

/-- Member `int calEquationType() { return _calEquationType; }`. -/
def calEquationType (s : State) : Int × State := (s._calEquationType, s)

/-- Member `int page() { return _page; }`. -/
def page (s : State) : Int × State := (s._page, s)

/-- Member `float sensorReading() { return _sensorReading; }`. -/
def sensorReading (s : State) : ℚ × State := (s._sensorReading, s)

/-- A character array of `cap` NUL characters. -/
def zeroBuf (cap : Nat) : CharBuf cap := ⟨List.replicate cap (Char.ofNat 0), by simp⟩

/-- The all-zero object state. -/
def zeroState : State :=
  { _voltageID := 0, _channel := 0, _sensorNumber := 0,
    _sensorName := zeroBuf sensorNameCapacity, _shortName := zeroBuf shortNameCapacity,
    _sensorUnits := zeroBuf sensorUnitsCapacity,
    _slope := 0, _sum := 0, _intercept := 0, _cFactor := 0, _calEquationType := 0,
    _page := 0, _sensorReading := 0, _distance := 0, _i := 0 }

/-- Two object states agree on every data member other than the scratch members
`_sum`, `_distance` and `_i`. -/
def agreeOffScratch (s t : State) : Prop :=
  s._voltageID = t._voltageID ∧ s._channel = t._channel ∧
  s._sensorNumber = t._sensorNumber ∧ s._sensorName = t._sensorName ∧
  s._shortName = t._shortName ∧ s._sensorUnits = t._sensorUnits ∧
  s._slope = t._slope ∧ s._intercept = t._intercept ∧ s._cFactor = t._cFactor ∧
  s._calEquationType = t._calEquationType ∧ s._page = t._page ∧
  s._sensorReading = t._sensorReading

instance (s t : State) : Decidable (agreeOffScratch s t) := by
  unfold agreeOffScratch
  infer_instance

/-! ## Error taxonomy (specification §7) -/

/-- Modelled from the spec: the error taxonomy of §7. The header declares no error
type, no error code and no exception. -/
inductive SensorError where
  | UnknownSensor
  | ChannelNotBound
  | UnsupportedEquationType
  | AcquisitionFailure
  deriving DecidableEq, Repr

/-- Outcome of calling an inline member function of the header on an object state.
Each inline body is a single `return` of a data member, with no guard, no throw and
no error code, so the call always completes with the returned value. -/
def invoke {α : Type} (f : State → α × State) (s : State) : Except SensorError α :=
  Except.ok (f s).1

/-! ## Sensor catalog and identification (modelled from the specification) -/

/-- Modelled from the spec: `SensorDefinition` of §3; the catalog table is not part
of the header. The three bounded strings are held in arrays of the sizes the header
declares for the corresponding members, the equation type is the integer tag of
`_calEquationType`. -/
structure SensorDefinition where
  expectedVoltageID : ℚ
  sensorNumber : Int
  name : CharBuf sensorNameCapacity
  shortName : CharBuf shortNameCapacity
  units : CharBuf sensorUnitsCapacity
  slope : ℚ
  intercept : ℚ
  correctionFactor : ℚ
  equationType : Int
  page : Int
  deriving DecidableEq

/-- Absolute difference between a catalog entry's expected voltage ID and a
candidate voltage. -/
def voltageDistance (candidate : ℚ) (d : SensorDefinition) : ℚ :=
  |d.expectedVoltageID - candidate|

/-- Modelled from the spec: the matcher's order of preference (§4.1). Entry `a` is
preferred to `b` when it is strictly closer to the candidate or, when equidistant,
has the lower `sensorNumber`. -/
def preferred (candidate : ℚ) (a b : SensorDefinition) : Bool :=
  decide (voltageDistance candidate a < voltageDistance candidate b) ||
    (decide (voltageDistance candidate a = voltageDistance candidate b) &&
      decide (a.sensorNumber < b.sensorNumber))

/-- Modelled from the spec: nearest catalog entry (§4.1), before the threshold is
applied. A later entry replaces an earlier one only when it is preferred, so the
choice is stable in catalog order. -/
def nearest (candidate : ℚ) : List SensorDefinition → Option SensorDefinition
  | [] => none
  | d :: rest =>
    match nearest candidate rest with
    | none => some d
    | some b => if preferred candidate b d then some b else some d

/-- Modelled from the spec: `lookupByVoltage` of §4.1 (the body of `autoID` and the
catalog are not in the header). The catalog and the acceptance threshold are
parameters. The nearest entry is returned only if its distance is within the
threshold; otherwise the answer is no match. -/
def lookupByVoltage (catalog : List SensorDefinition) (threshold candidate : ℚ) :
    Option SensorDefinition :=
  match nearest candidate catalog with
  | none => none
  | some d => if voltageDistance candidate d ≤ threshold then some d else none

/-- Modelled from the spec: the catalog invariant of §3. No two entries fall within
the acceptance threshold of each other. -/
def validCatalog (threshold : ℚ) (catalog : List SensorDefinition) : Prop :=
  catalog.Pairwise
    (fun a b => threshold < |a.expectedVoltageID - b.expectedVoltageID|)

/-- Modelled from the spec: `ChannelBinding` of §3. The channel, the copied
calibration fields and the cached converted reading (`lastCalibratedReading`) are
the data members of the class; `lastRawReading` has no data member in the header and
is carried beside the object. -/
structure ChannelBinding where
  sensor : State
  lastRawReading : ℚ
  deriving DecidableEq

/-- Modelled from the spec: Calibration State of §4.3, one optional binding per
channel; `none` is the unbound state. -/
abbrev CalibrationState : Type := Int → Option ChannelBinding

/-- Modelled from the spec: the binding constructed on a successful match (§4.2),
a value copy of every calibration field and of the channel number. The cached
readings and the scratch members start at zero. -/
def bindDefinition (channel : Int) (d : SensorDefinition) : ChannelBinding :=
  { sensor :=
      { _voltageID := d.expectedVoltageID, _channel := channel,
        _sensorNumber := d.sensorNumber, _sensorName := d.name,
        _shortName := d.shortName, _sensorUnits := d.units,
        _slope := d.slope, _sum := 0, _intercept := d.intercept,
        _cFactor := d.correctionFactor, _calEquationType := d.equationType,
        _page := d.page, _sensorReading := 0, _distance := 0, _i := 0 },
    lastRawReading := 0 }

/-- Modelled from the spec: `identify` of §4.2 (the body of `autoID` is not in the
header). On a match the channel's binding is replaced; on no match the call fails
with `UnknownSensor` and the calibration state is returned as it was. -/
def identify (catalog : List SensorDefinition) (threshold : ℚ) (st : CalibrationState)
    (channel : Int) (measuredVoltage : ℚ) :
    Except SensorError ChannelBinding × CalibrationState :=
  match lookupByVoltage catalog threshold measuredVoltage with
  | some d =>
    (Except.ok (bindDefinition channel d),
      Function.update st channel (some (bindDefinition channel d)))
  | none => (Except.error SensorError.UnknownSensor, st)

/-! ## Conversion engine (modelled from the specification) -/

/-- Modelled from the spec: the equation types of §3 and §4.4. `LINEAR` is the one
formula the specification fixes; any other supported type applies its own fixed
formula of slope, intercept, correction factor and raw sample. -/
inductive EquationType where
  | LINEAR
  | alternate (formula : ℚ → ℚ → ℚ → ℚ → ℚ)

/-- Modelled from the spec: which integer tags of `_calEquationType` select which
equation; the table is not in the header. A tag with no entry is unrecognised. -/
abbrev EquationTable : Type := Int → Option EquationType

/-- Modelled from the spec: the calibration equation selected by the equation type
(§4.4), with no correction-factor step. An unrecognised type is
`UnsupportedEquationType`. -/
def baseEquation (table : EquationTable) (s : State) (rawSample : ℚ) :
    Except SensorError ℚ :=
  match table s._calEquationType with
  | some EquationType.LINEAR => Except.ok (s._slope * rawSample + s._intercept)
  | some (EquationType.alternate f) =>
    Except.ok (f s._slope s._intercept s._cFactor rawSample)
  | none => Except.error SensorError.UnsupportedEquationType

/-- Modelled from the spec: the final multiplicative adjustment of §4.4. The
specification gives the `LINEAR` result in full as `slope * rawSample + intercept`,
so a linear value is returned as it is; the value of an alternate type, whose formula
takes the correction factor among its coefficients, is multiplied by the correction
factor. -/
def applyCorrection (table : EquationTable) (s : State) (v : ℚ) : ℚ :=
  match table s._calEquationType with
  | some EquationType.LINEAR => v
  | some (EquationType.alternate _) => v * s._cFactor
  | none => v

/-- Modelled from the spec: `convert` of §4.4 (the body of `readSensor` is not in the
header): the selected equation, then the correction-factor step. -/
def convert (table : EquationTable) (b : ChannelBinding) (rawSample : ℚ) :
    Except SensorError ℚ :=
  match baseEquation table b.sensor rawSample with
  | Except.ok v => Except.ok (applyCorrection table b.sensor v)
  | Except.error e => Except.error e

/-- Modelled from the spec: `readSensor` of §4.4 for a bound channel, the raw sample
being the value supplied by the acquisition adapter. On success the raw sample and
the result are written to the cached reading fields and the result is returned; on
failure the binding is returned as it was. -/
def readSensor (table : EquationTable) (b : ChannelBinding) (rawSample : ℚ) :
    Except SensorError ℚ × ChannelBinding :=
  match convert table b rawSample with
  | Except.ok v =>
    (Except.ok v, { sensor := { b.sensor with _sensorReading := v }, lastRawReading := rawSample })
  | Except.error e => (Except.error e, b)

/-! ## Concrete data used to exercise the definitions -/

/-- An equation table with the single tag `1` for `LINEAR`. -/
def linearOnlyTable : EquationTable := fun t => if t = 1 then some EquationType.LINEAR else none

/-- A catalog entry with the given voltage ID, number, slope, intercept and
correction factor, of linear type, with empty strings. -/
def mkDefinition (v : ℚ) (n : Int) (sl ic cf : ℚ) : SensorDefinition :=
  { expectedVoltageID := v, sensorNumber := n, name := zeroBuf sensorNameCapacity,
    shortName := zeroBuf shortNameCapacity, units := zeroBuf sensorUnitsCapacity,
    slope := sl, intercept := ic, correctionFactor := cf, equationType := 1, page := 0 }

/-- A three-entry catalog with voltage IDs 1, 2 and 3. -/
def sampleCatalog : List SensorDefinition :=
  [mkDefinition 1 10 2 (1/2) 1, mkDefinition 2 20 1 0 1, mkDefinition 3 30 3 1 2]

/-- A calibration state in which channel 1 is bound to the first sample entry. -/
def sampleCalibration : CalibrationState :=
  Function.update (fun _ => none) 1 (some (bindDefinition 1 (mkDefinition 1 10 2 (1/2) 1)))

/-- A linear binding with slope 2, intercept 1/2 and correction factor 1. -/
def unitFactorBinding : ChannelBinding := bindDefinition 1 (mkDefinition 1 10 2 (1/2) 1)

/-- An equation table with tag `1` for `LINEAR` and tag `2` for an alternate type
whose formula is `slope * raw * raw + intercept * raw + correctionFactor`. -/
def quadraticTable : EquationTable := fun t =>
  if t = 1 then some EquationType.LINEAR
  else if t = 2 then some (EquationType.alternate (fun sl ic cf raw => sl * raw * raw + ic * raw + cf))
  else none

/-- A binding of the alternate type `2` with slope 2, intercept 1/2 and correction
factor 1. -/
def quadraticBinding : ChannelBinding :=
  bindDefinition 1 { mkDefinition 1 10 2 (1/2) 1 with equationType := 2 }

/-- The all-zero object state with other values in the three scratch members. -/
def scratchState : State := { zeroState with _sum := 5, _distance := 7, _i := 3 }

/-- Entry `a` is at least as good a match for the candidate as entry `b`: strictly
closer, or equidistant with a sensor number that is not higher. -/
def notWorse (candidate : ℚ) (a b : SensorDefinition) : Prop :=
  voltageDistance candidate a < voltageDistance candidate b ∨
    (voltageDistance candidate a = voltageDistance candidate b ∧
      a.sensorNumber ≤ b.sensorNumber)

/-! ## Facts about the matcher -/

theorem notWorse_refl (c : ℚ) (a : SensorDefinition) : notWorse c a a :=
  Or.inr ⟨rfl, le_refl _⟩

theorem notWorse_trans {c : ℚ} {a b d : SensorDefinition}
    (hab : notWorse c a b) (hbd : notWorse c b d) : notWorse c a d := by
  unfold notWorse at *
  rcases hab with hab | ⟨hab, nab⟩
  · rcases hbd with hbd | ⟨hbd, _⟩
    · exact Or.inl (lt_trans hab hbd)
    · exact Or.inl (hbd ▸ hab)
  · rcases hbd with hbd | ⟨hbd, nbd⟩
    · exact Or.inl (hab ▸ hbd)
    · exact Or.inr ⟨hab.trans hbd, le_trans nab nbd⟩

theorem notWorse_of_preferred {c : ℚ} {a b : SensorDefinition}
    (h : preferred c a b = true) : notWorse c a b := by
  simp only [preferred, Bool.or_eq_true, Bool.and_eq_true, decide_eq_true_eq] at h
  rcases h with h | ⟨h, hn⟩
  · exact Or.inl h
  · exact Or.inr ⟨h, le_of_lt hn⟩

theorem notWorse_of_not_preferred {c : ℚ} {a b : SensorDefinition}
    (h : ¬ preferred c a b = true) : notWorse c b a := by
  simp only [preferred, Bool.or_eq_true, Bool.and_eq_true, decide_eq_true_eq, not_or,
    not_and, not_lt] at h
  obtain ⟨hle, hn⟩ := h
  rcases lt_or_eq_of_le hle with hlt | heq
  · exact Or.inl hlt
  · exact Or.inr ⟨heq, hn heq.symm⟩

theorem nearest_eq_none {c : ℚ} {l : List SensorDefinition} (h : nearest c l = none) :
    l = [] := by
  cases l with
  | nil => rfl
  | cons d rest =>
    simp only [nearest] at h
    split at h
    · cases h
    · split at h <;> cases h

theorem nearest_mem {c : ℚ} {l : List SensorDefinition} {d : SensorDefinition}
    (h : nearest c l = some d) : d ∈ l := by
  induction l generalizing d with
  | nil => simp [nearest] at h
  | cons x rest ih =>
    simp only [nearest] at h
    split at h
    · cases h
      exact List.mem_cons_self _ _
    · rename_i b hb
      split at h
      · cases h
        exact List.mem_cons_of_mem _ (ih hb)
      · cases h
        exact List.mem_cons_self _ _

theorem nearest_notWorse {c : ℚ} {l : List SensorDefinition} {d : SensorDefinition}
    (h : nearest c l = some d) : ∀ e ∈ l, notWorse c d e := by
  induction l generalizing d with
  | nil => simp [nearest] at h
  | cons x rest ih =>
    simp only [nearest] at h
    split at h
    · rename_i hnone
      cases h
      have hrest := nearest_eq_none hnone
      subst hrest
      intro e he
      simp only [List.mem_singleton] at he
      subst he
      exact notWorse_refl c _
    · rename_i b hb
      split at h
      · rename_i hp
        cases h
        intro e he
        rcases List.mem_cons.mp he with rfl | he
        · exact notWorse_of_preferred hp
        · exact ih hb e he
      · rename_i hp
        cases h
        intro e he
        rcases List.mem_cons.mp he with rfl | he
        · exact notWorse_refl c _
        · exact notWorse_trans (notWorse_of_not_preferred hp) (ih hb e he)

theorem nearest_isSome {c : ℚ} {l : List SensorDefinition} {e : SensorDefinition}
    (he : e ∈ l) : ∃ d, nearest c l = some d := by
  cases hn : nearest c l with
  | none =>
    have := nearest_eq_none hn
    subst this
    cases he
  | some d => exact ⟨d, rfl⟩

theorem voltageDistance_le_of_notWorse {c : ℚ} {a b : SensorDefinition}
    (h : notWorse c a b) : voltageDistance c a ≤ voltageDistance c b := by
  rcases h with h | ⟨h, _⟩
  · exact le_of_lt h
  · exact le_of_eq h

theorem lookupByVoltage_eq_some_iff (catalog : List SensorDefinition) (threshold c : ℚ)
    (d : SensorDefinition) :
    lookupByVoltage catalog threshold c = some d ↔
      nearest c catalog = some d ∧ voltageDistance c d ≤ threshold := by
  unfold lookupByVoltage
  cases hn : nearest c catalog with
  | none => simp
  | some b =>
    by_cases hb : voltageDistance c b ≤ threshold
    · simp only [hb, if_true, Option.some.injEq]
      constructor
      · rintro rfl
        exact ⟨rfl, hb⟩
      · exact fun h => h.1
    · simp only [hb, if_false, Option.some.injEq]
      constructor
      · intro h
        cases h
      · rintro ⟨rfl, h⟩
        exact absurd h hb

theorem nearest_exact {threshold : ℚ} {catalog : List SensorDefinition}
    (hthr : 0 ≤ threshold) (hvalid : validCatalog threshold catalog)
    {E : SensorDefinition} (hE : E ∈ catalog) :
    nearest E.expectedVoltageID catalog = some E := by
  obtain ⟨d, hd⟩ := nearest_isSome (c := E.expectedVoltageID) hE
  have hle := voltageDistance_le_of_notWorse (nearest_notWorse hd E hE)
  have hzero : voltageDistance E.expectedVoltageID E = 0 := by simp [voltageDistance]
  rw [hzero] at hle
  have hdE : |d.expectedVoltageID - E.expectedVoltageID| = 0 :=
    le_antisymm hle (abs_nonneg _)
  have hsymm : Symmetric
      (fun a b : SensorDefinition => threshold < |a.expectedVoltageID - b.expectedVoltageID|) := by
    intro a b hab
    rwa [abs_sub_comm]
  by_cases hne : d = E
  · rw [hd, hne]
  · have hfar := hvalid.forall hsymm (nearest_mem hd) hE hne
    rw [hdE] at hfar
    exact absurd hfar (not_lt.mpr hthr)

/-! ## Concrete checks of the definitions -/

theorem sampleCatalog_valid : validCatalog (1/4) sampleCatalog := by
  simp only [validCatalog, sampleCatalog, mkDefinition, List.pairwise_cons, List.mem_cons,
    List.mem_singleton, List.not_mem_nil, forall_eq_or_imp, forall_eq, List.Pairwise.nil]
  norm_num [lt_abs]

/-! ## Claims -/

/-- C2. The catalog lookup returns an entry of the catalog that is within the
acceptance threshold, whose distance to the candidate is the smallest of the catalog
and whose sensor number is the lowest among the entries at that distance; it returns
an entry whenever some entry is within the threshold; and, for a catalog satisfying
its invariant and a non-negative threshold, looking up the expected voltage ID of a
catalog entry returns exactly that entry. -/
theorem lookupByVoltage_nearest_within_threshold (catalog : List SensorDefinition)
    (threshold candidate : ℚ) :
    (∀ d, lookupByVoltage catalog threshold candidate = some d →
      d ∈ catalog ∧ voltageDistance candidate d ≤ threshold ∧
      ∀ e ∈ catalog, voltageDistance candidate d ≤ voltageDistance candidate e ∧
        (voltageDistance candidate e = voltageDistance candidate d →
          d.sensorNumber ≤ e.sensorNumber)) ∧
    ((∃ e ∈ catalog, voltageDistance candidate e ≤ threshold) →
      ∃ d, lookupByVoltage catalog threshold candidate = some d) ∧
    (0 ≤ threshold → validCatalog threshold catalog →
      ∀ E ∈ catalog, lookupByVoltage catalog threshold E.expectedVoltageID = some E) := by
  refine ⟨?_, ?_, ?_⟩
  · intro d hd
    obtain ⟨hn, hwithin⟩ := (lookupByVoltage_eq_some_iff _ _ _ _).mp hd
    refine ⟨nearest_mem hn, hwithin, ?_⟩
    intro e he
    have hnw := nearest_notWorse hn e he
    refine ⟨voltageDistance_le_of_notWorse hnw, ?_⟩
    intro heq
    rcases hnw with hlt | ⟨_, hnum⟩
    · exact absurd heq.symm (ne_of_lt hlt)
    · exact hnum
  · rintro ⟨e, he, hwithin⟩
    obtain ⟨d, hd⟩ := nearest_isSome (c := candidate) he
    refine ⟨d, (lookupByVoltage_eq_some_iff _ _ _ _).mpr ⟨hd, ?_⟩⟩
    exact le_trans (voltageDistance_le_of_notWorse (nearest_notWorse hd e he)) hwithin
  · intro hthr hvalid E hE
    refine (lookupByVoltage_eq_some_iff _ _ _ _).mpr ⟨nearest_exact hthr hvalid hE, ?_⟩
    simpa [voltageDistance] using hthr

/-- Witness for C2 on the three-entry catalog with threshold 1/4: the catalog is
valid and looking up the voltage ID 2 returns the entry numbered 20. -/
theorem lookupByVoltage_nearest_within_threshold_witness :
    (0 : ℚ) ≤ 1/4 ∧ validCatalog (1/4) sampleCatalog ∧
      mkDefinition 2 20 1 0 1 ∈ sampleCatalog ∧
      lookupByVoltage sampleCatalog (1/4) (mkDefinition 2 20 1 0 1).expectedVoltageID =
        some (mkDefinition 2 20 1 0 1) :=
  ⟨by norm_num, sampleCatalog_valid, by simp [sampleCatalog],
    (lookupByVoltage_nearest_within_threshold sampleCatalog (1/4) 0).2.2 (by norm_num)
      sampleCatalog_valid _ (by simp [sampleCatalog])⟩

/-- C3. When the measured voltage is strictly outside the acceptance threshold of
every catalog entry, the lookup finds no match, identification fails with
`UnknownSensor`, and the calibration state, in particular the prior binding of the
channel, is returned unchanged. -/
theorem identify_no_match_unknown_sensor (catalog : List SensorDefinition)
    (threshold : ℚ) (st : CalibrationState) (channel : Int) (measuredVoltage : ℚ)
    (hout : ∀ e ∈ catalog, threshold < voltageDistance measuredVoltage e) :
    lookupByVoltage catalog threshold measuredVoltage = none ∧
    identify catalog threshold st channel measuredVoltage =
      (Except.error SensorError.UnknownSensor, st) ∧
    (identify catalog threshold st channel measuredVoltage).2 channel = st channel := by
  have hnone : lookupByVoltage catalog threshold measuredVoltage = none := by
    cases hl : lookupByVoltage catalog threshold measuredVoltage with
    | none => rfl
    | some d =>
      obtain ⟨hn, hwithin⟩ := (lookupByVoltage_eq_some_iff _ _ _ _).mp hl
      exact absurd hwithin (not_le.mpr (hout d (nearest_mem hn)))
  have hid : identify catalog threshold st channel measuredVoltage =
      (Except.error SensorError.UnknownSensor, st) := by
    simp only [identify, hnone]
  exact ⟨hnone, hid, by rw [hid]⟩

/-- Witness for C3: the voltage 3/2 is 1/2 away from the nearest entries of the sample
catalog, outside the threshold 1/4, and identification on the bound channel 1 fails
leaving the calibration state as it was. -/
theorem identify_no_match_unknown_sensor_witness :
    (∀ e ∈ sampleCatalog, (1/4 : ℚ) < voltageDistance (3/2) e) ∧
      identify sampleCatalog (1/4) sampleCalibration 1 (3/2) =
        (Except.error SensorError.UnknownSensor, sampleCalibration) :=
  have hout : ∀ e ∈ sampleCatalog, (1/4 : ℚ) < voltageDistance (3/2) e := by
    simp only [sampleCatalog, mkDefinition, List.mem_cons, List.mem_singleton,
      List.not_mem_nil, forall_eq_or_imp, forall_eq, voltageDistance]
    norm_num [lt_abs]
  ⟨hout, (identify_no_match_unknown_sensor sampleCatalog (1/4) sampleCalibration 1 (3/2)
    hout).2.1⟩

/-- C1. For every binding whose equation type is LINEAR and every raw sample, the
conversion returns `slope * rawSample + intercept`, and `readSensor` returns that same
value and caches it; with slope 2, intercept 1/2 and raw sample 10 the value is 41/2,
that is 20.5. -/
theorem convert_linear (table : EquationTable) (b : ChannelBinding) (rawSample : ℚ)
    (hlin : table b.sensor._calEquationType = some EquationType.LINEAR) :
    convert table b rawSample =
      Except.ok (b.sensor._slope * rawSample + b.sensor._intercept) ∧
    (readSensor table b rawSample).1 =
      Except.ok (b.sensor._slope * rawSample + b.sensor._intercept) ∧
    (readSensor table b rawSample).2.sensor._sensorReading =
      b.sensor._slope * rawSample + b.sensor._intercept ∧
    (b.sensor._slope = 2 → b.sensor._intercept = 1/2 → rawSample = 10 →
      convert table b rawSample = Except.ok (41/2) ∧
      (readSensor table b rawSample).1 = Except.ok (41/2)) := by
  have h : convert table b rawSample =
      Except.ok (b.sensor._slope * rawSample + b.sensor._intercept) := by
    simp only [convert, baseEquation, applyCorrection, hlin]
  have hr : (readSensor table b rawSample).1 =
      Except.ok (b.sensor._slope * rawSample + b.sensor._intercept) := by
    simp only [readSensor, h]
  refine ⟨h, hr, ?_, ?_⟩
  · simp only [readSensor, h]
  · intro hs hi hraw
    have hval : b.sensor._slope * rawSample + b.sensor._intercept = 41/2 := by
      rw [hs, hi, hraw]
      norm_num
    rw [h, hr, hval]
    exact ⟨rfl, rfl⟩

/-- Witness for C1: slope 2, intercept 1/2, raw sample 10 gives 41/2, that is 20.5,
both from the conversion and from `readSensor`. -/
theorem convert_linear_witness :
    linearOnlyTable unitFactorBinding.sensor._calEquationType = some EquationType.LINEAR ∧
      convert linearOnlyTable unitFactorBinding 10 = Except.ok (41/2) ∧
      (readSensor linearOnlyTable unitFactorBinding 10).1 = Except.ok (41/2) :=
  ⟨rfl, (convert_linear linearOnlyTable unitFactorBinding 10 rfl).2.2.2 rfl rfl rfl⟩

/-- C4. With correction factor 1 the conversion gives the same result as the selected
calibration equation evaluated with no correction-factor step, for every equation
table, binding and raw sample (an unsupported type fails the same way in both). -/
theorem convert_unit_cFactor (table : EquationTable) (b : ChannelBinding) (rawSample : ℚ)
    (hone : b.sensor._cFactor = 1) :
    convert table b rawSample = baseEquation table b.sensor rawSample := by
  unfold convert
  cases hbase : baseEquation table b.sensor rawSample with
  | error e => rfl
  | ok v =>
    have hstep : applyCorrection table b.sensor v = v := by
      unfold applyCorrection
      split
      · rfl
      · rw [hone, mul_one]
      · rfl
    simp only [hstep]

/-- Witness for C4 on a binding of an alternate type with correction factor 1, where
the correction-factor step is taken: the conversion and the bare equation agree at
raw sample 10. -/
theorem convert_unit_cFactor_witness :
    quadraticBinding.sensor._cFactor = 1 ∧
      convert quadraticTable quadraticBinding 10 =
        baseEquation quadraticTable quadraticBinding.sensor 10 :=
  ⟨rfl, convert_unit_cFactor quadraticTable quadraticBinding 10 rfl⟩

/-- C5. The member `sensorReading()` returns the cached `_sensorReading` and the
object state it was called on, and its result is the same whatever values the slope,
intercept, correction factor and equation type members hold. -/
theorem sensorReading_cached_no_effect (s : State) :
    sensorReading s = (s._sensorReading, s) ∧
    ∀ (sl ic cf : ℚ) (ty : Int),
      (sensorReading
        { s with _slope := sl, _intercept := ic, _cFactor := cf, _calEquationType := ty }).1 =
        (sensorReading s).1 :=
  ⟨rfl, fun _ _ _ _ => rfl⟩

/-- C6. Each calibration accessor returns the value of its own data member together
with the object state it was called on, unchanged. -/
theorem accessors_return_own_member (s : State) :
    channel s = (s._channel, s) ∧ voltageID s = (s._voltageID, s) ∧
    sensorNumber s = (s._sensorNumber, s) ∧ sensorName s = (s._sensorName, s) ∧
    shortName s = (s._shortName, s) ∧ sensorUnits s = (s._sensorUnits, s) ∧
    slope s = (s._slope, s) ∧ intercept s = (s._intercept, s) ∧
    cFactor s = (s._cFactor, s) ∧ calEquationType s = (s._calEquationType, s) ∧
    page s = (s._page, s) :=
  ⟨rfl, rfl, rfl, rfl, rfl, rfl, rfl, rfl, rfl, rfl, rfl⟩

/-- C7. When `readSensor` succeeds with a value, a following `sensorReading()` on the
resulting state returns exactly that value and the raw sample is cached; a second
`readSensor` with the same raw sample returns the same result as the first; and
`readSensor` does succeed whenever the equation type of the binding is in the
table. -/
theorem readSensor_caches_and_repeats (table : EquationTable) (b : ChannelBinding)
    (rawSample : ℚ) :
    (∀ v, (readSensor table b rawSample).1 = Except.ok v →
      (sensorReading (readSensor table b rawSample).2.sensor).1 = v ∧
      (readSensor table b rawSample).2.lastRawReading = rawSample) ∧
    (readSensor table (readSensor table b rawSample).2 rawSample).1 =
      (readSensor table b rawSample).1 ∧
    ((table b.sensor._calEquationType).isSome = true →
      ∃ v, (readSensor table b rawSample).1 = Except.ok v) := by
  have hconv : ∀ (v r : ℚ),
      convert table { sensor := { b.sensor with _sensorReading := v }, lastRawReading := r }
        rawSample = convert table b rawSample := fun _ _ => rfl
  refine ⟨?_, ?_, ?_⟩
  · intro v hv
    unfold readSensor at hv ⊢
    cases hc : convert table b rawSample with
    | error e => rw [hc] at hv; cases hv
    | ok w =>
      rw [hc] at hv
      cases hv
      exact ⟨rfl, rfl⟩
  · cases hc : convert table b rawSample with
    | error e => simp only [readSensor, hc]
    | ok w => simp only [readSensor, hc, hconv]
  · intro hsome
    obtain ⟨ty, hty⟩ := Option.isSome_iff_exists.mp hsome
    cases ty with
    | LINEAR =>
      exact ⟨b.sensor._slope * rawSample + b.sensor._intercept,
        by simp only [readSensor, convert, baseEquation, applyCorrection, hty]⟩
    | alternate f =>
      exact ⟨f b.sensor._slope b.sensor._intercept b.sensor._cFactor rawSample *
        b.sensor._cFactor,
        by simp only [readSensor, convert, baseEquation, applyCorrection, hty]⟩

/-- Witness for C7 on the linear binding with correction factor 1 and raw sample 10:
the first call returns 41/2, the cached reading is then 41/2, and a second call
returns 41/2 again. -/
theorem readSensor_caches_and_repeats_witness :
    (readSensor linearOnlyTable unitFactorBinding 10).1 = Except.ok (41/2) ∧
      (sensorReading (readSensor linearOnlyTable unitFactorBinding 10).2.sensor).1 = 41/2 ∧
      (readSensor linearOnlyTable (readSensor linearOnlyTable unitFactorBinding 10).2 10).1 =
        Except.ok (41/2) :=
  have h := readSensor_caches_and_repeats linearOnlyTable unitFactorBinding 10
  have hfirst : (readSensor linearOnlyTable unitFactorBinding 10).1 = Except.ok (41/2) := by
    simp only [readSensor, convert, baseEquation, applyCorrection, unitFactorBinding,
      bindDefinition, mkDefinition, linearOnlyTable, if_true]
    norm_num
  ⟨hfirst, (h.1 _ hfirst).1, h.2.1.trans hfirst⟩

/-- C8 (as stated) fails: on the all-zero object, on which `autoID` has never run,
the accessor `channel()` completes with the value 0 and not with `ChannelNotBound`. -/
theorem accessor_unbound_counterexample :
    invoke channel zeroState = Except.ok 0 ∧
      invoke channel zeroState ≠ Except.error SensorError.ChannelNotBound := by
  constructor
  · rfl
  · intro h
    cases h

/-- C8 (amended). On every object state, so also on one on which `autoID` has never
succeeded, each accessor completes with the value of its data member; none of them
fails with `ChannelNotBound`. -/
theorem accessors_always_return (s : State) :
    invoke channel s = Except.ok s._channel ∧
    invoke voltageID s = Except.ok s._voltageID ∧
    invoke sensorNumber s = Except.ok s._sensorNumber ∧
    invoke sensorName s = Except.ok s._sensorName ∧
    invoke shortName s = Except.ok s._shortName ∧
    invoke sensorUnits s = Except.ok s._sensorUnits ∧
    invoke slope s = Except.ok s._slope ∧
    invoke intercept s = Except.ok s._intercept ∧
    invoke cFactor s = Except.ok s._cFactor ∧
    invoke calEquationType s = Except.ok s._calEquationType ∧
    invoke page s = Except.ok s._page ∧
    invoke sensorReading s = Except.ok s._sensorReading :=
  ⟨rfl, rfl, rfl, rfl, rfl, rfl, rfl, rfl, rfl, rfl, rfl, rfl⟩

/-- C9. In every object state the sensor name, short name and units buffers hold
exactly 16, 12 and 7 characters, and a string of `n` characters plus its terminator
fits in them exactly when `n` is at most 15, 11 and 6 respectively. -/
theorem buffers_hold_bounded_strings (s : State) :
    (s._sensorName.val.length = 16 ∧ ∀ n, fitsWithTerminator sensorNameCapacity n = true ↔ n ≤ 15) ∧
    (s._shortName.val.length = 12 ∧ ∀ n, fitsWithTerminator shortNameCapacity n = true ↔ n ≤ 11) ∧
    (s._sensorUnits.val.length = 7 ∧ ∀ n, fitsWithTerminator sensorUnitsCapacity n = true ↔ n ≤ 6) := by
  refine ⟨⟨s._sensorName.property, ?_⟩, ⟨s._shortName.property, ?_⟩,
    ⟨s._sensorUnits.property, ?_⟩⟩
  · intro n
    simp only [fitsWithTerminator, sensorNameCapacity, decide_eq_true_eq]
    omega
  · intro n
    simp only [fitsWithTerminator, shortNameCapacity, decide_eq_true_eq]
    omega
  · intro n
    simp only [fitsWithTerminator, sensorUnitsCapacity, decide_eq_true_eq]
    omega

/-- C10. Two object states that agree on every data member other than the scratch
members `_sum`, `_distance` and `_i` give the same result for every public
accessor. -/
theorem accessors_ignore_scratch (s t : State) (h : agreeOffScratch s t) :
    (channel s).1 = (channel t).1 ∧ (voltageID s).1 = (voltageID t).1 ∧
    (sensorNumber s).1 = (sensorNumber t).1 ∧ (sensorName s).1 = (sensorName t).1 ∧
    (shortName s).1 = (shortName t).1 ∧ (sensorUnits s).1 = (sensorUnits t).1 ∧
    (slope s).1 = (slope t).1 ∧ (intercept s).1 = (intercept t).1 ∧
    (cFactor s).1 = (cFactor t).1 ∧ (calEquationType s).1 = (calEquationType t).1 ∧
    (page s).1 = (page t).1 ∧ (sensorReading s).1 = (sensorReading t).1 := by
  obtain ⟨h1, h2, h3, h4, h5, h6, h7, h8, h9, h10, h11, h12⟩ := h
  exact ⟨h2, h1, h3, h4, h5, h6, h7, h8, h9, h10, h11, h12⟩

/-- Witness for C10: the all-zero state and the state that differs from it in the
three scratch members are different states on which every accessor agrees. -/
theorem accessors_ignore_scratch_witness :
    agreeOffScratch zeroState scratchState ∧ zeroState ≠ scratchState ∧
      (channel zeroState).1 = (channel scratchState).1 ∧
      (sensorReading zeroState).1 = (sensorReading scratchState).1 :=
  have hagree : agreeOffScratch zeroState scratchState :=
    ⟨rfl, rfl, rfl, rfl, rfl, rfl, rfl, rfl, rfl, rfl, rfl, rfl⟩
  have h := accessors_ignore_scratch zeroState scratchState hagree
  ⟨hagree, fun heq => absurd (congrArg State._i heq) (by decide), h.1, h.2.2.2.2.2.2.2.2.2.2.2⟩

end VernierSensor
